import Mathlib

/-
Verification of the news-pwa pipeline script (src/main.py).

The script is a single sequential pipeline:
  fetch_google_news  : RSS fetch, per-item title cleaning and link length guard
  get_gemini_summary : summarization with an ordered three-model fallback chain
  send_flex_message  : composition and push of a LINE flex message
  update_pwa_data    : best-effort snapshot persistence

The remote generation service is modelled as an oracle mapping each call
(model id, prompt contents, safety settings) to an optional response text:
some text models a call whose try-block completes and yields a string,
none models any failure caught by the per-attempt except clause.
-/

namespace NewsPwa

/-! ## Headline records (fetch_google_news, src/main.py lines 25-30) -/

/-- One cleaned (title, link) pair, as appended to news_list. -/
structure HeadlineRecord where
  title : String
  link : String
deriving DecidableEq, Repr

/-- Python str.split(sep): cut the character list at every non-overlapping
occurrence of sep, scanning left to right.  The guard sep being nonempty
mirrors Python, where split with an empty separator is an error. -/
def pySplit (sep : List Char) : List Char → List (List Char)
  | [] => [[]]
  | c :: rest =>
    if sep.isPrefixOf (c :: rest) ∧ sep ≠ [] then
      [] :: pySplit sep (List.drop (sep.length - 1) rest)
    else
      (c :: (pySplit sep rest).headD []) :: (pySplit sep rest).tail
termination_by l => l.length
decreasing_by
  · simp only [List.length_cons, List.length_drop]
    omega
  · simp

/-- The separator used on line 28 of src/main.py. -/
def sepChars : List Char := " - ".data

/-- Line 28: clean_title = title.split(' - ')[0]. -/
def clean_title (t : String) : String :=
  String.mk ((pySplit sepChars t.data).headD [])

/-- The separator occurs in l starting at index i. -/
def occursAt (sep l : List Char) (i : Nat) : Prop :=
  sep.isPrefixOf (List.drop i l) = true

instance (sep l : List Char) (i : Nat) : Decidable (occursAt sep l i) := by
  unfold occursAt
  infer_instance

/-- Line 29: links longer than 990 characters are replaced by the fixed
fallback URL, others pass through unchanged. -/
def fetch_link (link : String) : String :=
  if link.length > 990 then "https://news.google.com/" else link

/-- Lines 26-30: the stored record for one feed item. -/
def fetch_item (title link : String) : HeadlineRecord :=
  { title := clean_title title, link := fetch_link link }

/-! ## Summarization engine (get_gemini_summary, src/main.py lines 35-88) -/

/-- Line 46: greeting as a function of the local hour in UTC+8. -/
def greeting (h : Nat) : String :=
  if 5 ≤ h ∧ h < 12 then "早安" else if 12 ≤ h ∧ h < 18 then "午安" else "晚安"

/-- Line 39: titles_text = newline-joined "- title" lines. -/
def titles_text (news_list : List HeadlineRecord) : String :=
  String.intercalate "\n" (news_list.map (fun n => "- " ++ n.title))

/-- Lines 49-58: the prompt string, a pure function of the headline list and
the local hour. -/
def build_prompt (news_list : List HeadlineRecord) (h : Nat) : String :=
  "以下是台灣今日熱門新聞：\n" ++ titles_text news_list ++ "\n\n" ++
  "請以『" ++ greeting h ++ "，為您帶來重點快報』開場，生成一份約 300 字的重點摘要。" ++
  "⚠️ 格式嚴格要求：" ++
  "1. 請根據新聞內容自動分類，例如【政治焦點】、【國際情勢】、【社會動態】、【財經消息】等。" ++
  "2. 每個分類標題請使用【 】符號包起來，並獨佔一行。" ++
  "3. 不同分類之間務必空一行，讓版面清晰。" ++
  "4. 內容請用條列式呈現，重點清晰。" ++
  "5. 請勿使用 Markdown 的 ** 粗體符號，直接純文字輸出即可。"

/-- One types.SafetySetting entry. -/
structure SafetySetting where
  category : String
  threshold : String
deriving DecidableEq, Repr

/-- Lines 63-68: the safety configuration built once before the loop. -/
def safety_config : List SafetySetting :=
  [ { category := "HARM_CATEGORY_HATE_SPEECH", threshold := "BLOCK_NONE" },
    { category := "HARM_CATEGORY_DANGEROUS_CONTENT", threshold := "BLOCK_NONE" },
    { category := "HARM_CATEGORY_SEXUALLY_EXPLICIT", threshold := "BLOCK_NONE" },
    { category := "HARM_CATEGORY_HARASSMENT", threshold := "BLOCK_NONE" } ]

/-- Line 71: the ordered fallback model list. -/
def models_to_try : List String :=
  ["gemini-2.0-flash", "gemini-2.0-flash-lite", "gemini-1.5-flash"]

/-- One invocation of client.models.generate_content (lines 76-80). -/
structure GenCall where
  model : String
  contents : String
  safety_settings : List SafetySetting
deriving DecidableEq, Repr

/-- The generation call issued on one loop iteration (lines 76-80): the
model name of the iteration, with the prompt and the safety configuration
shared by every iteration. -/
def mkCall (m prompt : String) : GenCall :=
  { model := m, contents := prompt, safety_settings := safety_config }

/-- Python text.replace with pattern ** and empty replacement: remove every
non-overlapping occurrence of two consecutive asterisks, left to right. -/
def strip_marker : List Char → List Char
  | '*' :: '*' :: rest => strip_marker rest
  | c :: rest => c :: strip_marker rest
  | [] => []

/-- Line 82: response.text.replace applied to a successful response. -/
def strip_bold (s : String) : String :=
  String.mk (strip_marker s.data)

/-- Line 37: sentinel returned when the API key is missing. -/
def missing_key_sentinel : String := "❌ 缺少 API Key"

/-- Line 88: sentinel returned when every attempt failed. -/
def exhaust_sentinel : String := "❌ AI 暫時無法回應 (可能因新聞內容過於敏感被攔截)"

/-- Lines 73-86: the fallback loop over an ordered model list.  Each
iteration issues one call with the shared prompt and safety configuration;
a success returns the marker-stripped text at once, a failure moves on, and
an exhausted list yields the exhaustion sentinel (line 88).  The second
component records the calls issued, in order. -/
def run_attempts (oracle : GenCall → Option String) (prompt : String) :
    List String → String × List GenCall
  | [] => (exhaust_sentinel, [])
  | m :: rest =>
    match oracle (mkCall m prompt) with
    | some text => (strip_bold text, [mkCall m prompt])
    | none =>
      ((run_attempts oracle prompt rest).1, mkCall m prompt :: (run_attempts oracle prompt rest).2)

/-- Lines 35-88: the summarization engine.  The key is the environment
variable GEMINI_API_KEY (none when unset); Python treats the empty string as
falsy too.  Returns the produced summary together with the generation calls
issued. -/
def get_gemini_summary (key : Option String) (oracle : GenCall → Option String)
    (news_list : List HeadlineRecord) (h : Nat) : String × List GenCall :=
  if key = none ∨ key = some "" then (missing_key_sentinel, [])
  else run_attempts oracle (build_prompt news_list h) models_to_try

/-! ## Flex message composition (send_flex_message, src/main.py lines 90-121) -/

/-- A JSON value.  Objects and arrays are built as constructor chains
(field key value rest, item head rest) so that equality stays decidable;
the helpers jobj and jarr below recover the literal dict and list shape of
the Python source. -/
inductive JsonV where
  | str : String → JsonV
  | num : Nat → JsonV
  | bool : Bool → JsonV
  | onil : JsonV
  | field : String → JsonV → JsonV → JsonV
  | anil : JsonV
  | item : JsonV → JsonV → JsonV
deriving DecidableEq, Repr

/-- A JSON object given as its ordered key-value pairs. -/
def jobj : List (String × JsonV) → JsonV
  | [] => JsonV.onil
  | (k, v) :: rest => JsonV.field k v (jobj rest)

/-- A JSON array given as its element list. -/
def jarr : List JsonV → JsonV
  | [] => JsonV.anil
  | v :: rest => JsonV.item v (jarr rest)

/-- Line 97: the header text node opening the flex list. -/
def header_node (tw_time : String) : JsonV :=
  jobj [("type", .str "text"), ("text", .str ("📅 " ++ tw_time ++ " 新聞快報")),
        ("weight", .str "bold"), ("size", .str "md"), ("color", .str "#888888")]

/-- Lines 100-106: the highlighted AI-summary box, appended only when the
summary string is truthy. -/
def summary_box (summary : String) : JsonV :=
  jobj [("type", .str "box"), ("layout", .str "vertical"),
        ("backgroundColor", .str "#f0f8ff"), ("cornerRadius", .str "md"),
        ("paddingAll", .str "md"), ("margin", .str "md"),
        ("contents", jarr
          [ jobj [("type", .str "text"), ("text", .str "🤖 AI 重點摘要"),
                  ("weight", .str "bold"), ("size", .str "md"), ("color", .str "#1DB446")],
            jobj [("type", .str "text"), ("text", .str summary), ("wrap", .bool true),
                  ("size", .str "md"), ("margin", .str "md"), ("color", .str "#555555"),
                  ("lineSpacing", .str "6px")] ])]

/-- Line 108: the separator node. -/
def separator_node : JsonV :=
  jobj [("type", .str "separator"), ("margin", .str "xl")]

/-- Line 109: the headline-section title node. -/
def hot_node : JsonV :=
  jobj [("type", .str "text"), ("text", .str "🔥 熱門頭條"), ("weight", .str "bold"),
        ("size", .str "xl"), ("margin", .str "xl")]

/-- Lines 111-118: one ranked headline row. -/
def headline_row (i : Nat) (it : HeadlineRecord) : JsonV :=
  jobj [("type", .str "box"), ("layout", .str "horizontal"), ("margin", .str "lg"),
        ("contents", jarr
          [ jobj [("type", .str "text"), ("text", .str (toString i ++ ".")),
                  ("flex", .num 0), ("color", .str "#aaaaaa"), ("size", .str "lg")],
            jobj [("type", .str "text"), ("text", .str it.title), ("wrap", .bool true),
                  ("size", .str "lg"), ("color", .str "#111111"), ("flex", .num 1),
                  ("margin", .str "md"),
                  ("action", jobj [("type", .str "uri"), ("uri", .str it.link)])] ])]

/-- The rows produced by enumerate(news_list, 1). -/
def headline_rows (i : Nat) : List HeadlineRecord → List JsonV
  | [] => []
  | it :: rest => headline_row i it :: headline_rows (i + 1) rest

/-- Lines 97-118: the contents list of the flex bubble body, in the order the
script appends the nodes. -/
def flex_contents (news_list : List HeadlineRecord) (summary : String)
    (tw_time : String) : List JsonV :=
  [header_node tw_time] ++
  (if summary ≠ "" then [summary_box summary] else []) ++
  [separator_node, hot_node] ++
  headline_rows 1 news_list

/-! ## Pipeline control flow (src/main.py lines 90-137) -/

/-- What the single requests.post call on line 121 does: return a response
(successful or an HTTP error status, both ignored by the script) or raise a
transport exception. -/
inductive PostOutcome where
  | ok
  | httpError
  | raiseExc
deriving DecidableEq, Repr

/-- Observable behaviour of one send_flex_message invocation: how many POST
requests were issued and whether the function raised. -/
structure SendResult where
  postCount : Nat
  raised : Bool
deriving DecidableEq, Repr

/-- Lines 90-121: send_flex_message returns silently when the LINE token is
falsy; otherwise it issues exactly one POST with no retry, no response
inspection and no exception handler, so a raising POST propagates. -/
def send_flex_message (token : Option String) (outcome : PostOutcome) : SendResult :=
  if token = none ∨ token = some "" then { postCount := 0, raised := false }
  else
    match outcome with
    | PostOutcome.raiseExc => { postCount := 1, raised := true }
    | _ => { postCount := 1, raised := false }

/-- Lines 123-130: update_pwa_data wraps everything in a blanket
try/except pass, so it never raises, whatever the file write does. -/
def update_pwa_data_raises : Bool := false

/-- Observable trace of one run of the \_\_main\_\_ block. -/
structure RunTrace where
  summaryCalled : Bool
  genCalls : List GenCall
  postCount : Nat
  persistCalled : Bool
  crashed : Bool
deriving DecidableEq, Repr

/-- Lines 132-137: the main block.  fetch_google_news already absorbed its
own errors (empty list on failure); a falsy headline list skips every later
stage; an exception escaping send_flex_message aborts the run before
update_pwa_data. -/
def main_run (fetched : List HeadlineRecord) (key : Option String)
    (oracle : GenCall → Option String) (h : Nat)
    (token : Option String) (outcome : PostOutcome) : RunTrace :=
  if fetched = [] then
    { summaryCalled := false, genCalls := [], postCount := 0,
      persistCalled := false, crashed := false }
  else
    let r := get_gemini_summary key oracle fetched h
    let s := send_flex_message token outcome
    if s.raised then
      { summaryCalled := true, genCalls := r.2, postCount := s.postCount,
        persistCalled := false, crashed := true }
    else
      { summaryCalled := true, genCalls := r.2, postCount := s.postCount,
        persistCalled := true, crashed := update_pwa_data_raises }

/-! ## Concrete inputs used by the witnesses -/

/-- A one-element headline list. -/
def w_news : List HeadlineRecord := [{ title := "A", link := "http://x" }]

/-- An oracle whose first model fails and whose later models succeed. -/
def w_oracle : GenCall → Option String :=
  fun c => if c.model = "gemini-2.0-flash" then none else some "**Hi** there"

/-- An oracle on which every attempt fails. -/
def w_fail_oracle : GenCall → Option String := fun _ => none

/-- A link of 991 characters, exceeding the 990-character bound. -/
def w_long_link : String := String.mk (List.replicate 991 'a')

/-! ## Helper lemmas -/

/-- If every model in the list fails, the loop walks the whole list, calls
each model once in order, and falls through to the exhaustion sentinel. -/
lemma run_attempts_all_fail (oracle : GenCall → Option String) (prompt : String)
    (ms : List String)
    (hfail : ∀ m ∈ ms, oracle (mkCall m prompt) = none) :
    run_attempts oracle prompt ms =
      (exhaust_sentinel, ms.map (fun m => mkCall m prompt)) := by
  induction ms with
  | nil => simp [run_attempts]
  | cons m rest ih =>
    have hm := hfail m (List.mem_cons_self m rest)
    have ihr := ih (fun x hx => hfail x (List.mem_cons_of_mem _ hx))
    simp [run_attempts, hm, ihr]

/-- Whatever the oracle does, the calls issued by the loop are the calls for
some prefix of the model list, each built from the shared prompt and safety
configuration. -/
lemma run_attempts_calls (oracle : GenCall → Option String) (prompt : String)
    (ms : List String) :
    ∃ n, (run_attempts oracle prompt ms).2 =
      (ms.take n).map (fun m => mkCall m prompt) := by
  induction ms with
  | nil => exact ⟨0, by simp [run_attempts]⟩
  | cons m rest ih =>
    cases ho : oracle (mkCall m prompt) with
    | some t => exact ⟨1, by simp [run_attempts, ho]⟩
    | none =>
      obtain ⟨n, hn⟩ := ih
      exact ⟨n + 1, by simp [run_attempts, ho, hn]⟩

/-- The summary box differs from the header node, whatever the strings are:
their type fields already disagree. -/
lemma summary_box_ne_header (s tw : String) : summary_box s ≠ header_node tw := by
  simp [summary_box, header_node, jobj]

/-- The summary box differs from the separator node. -/
lemma summary_box_ne_separator (s : String) : summary_box s ≠ separator_node := by
  simp [summary_box, separator_node, jobj]

/-- The summary box differs from the headline-section title node. -/
lemma summary_box_ne_hot (s : String) : summary_box s ≠ hot_node := by
  simp [summary_box, hot_node, jobj]

/-- The summary box differs from every headline row: the box is vertical,
the rows horizontal. -/
lemma summary_box_ne_row (s : String) (i : Nat) (it : HeadlineRecord) :
    summary_box s ≠ headline_row i it := by
  simp [summary_box, headline_row, jobj]

/-- The summary box never occurs among the headline rows. -/
lemma summary_box_not_in_rows (s : String) (news : List HeadlineRecord) :
    ∀ i, summary_box s ∉ headline_rows i news := by
  induction news with
  | nil => intro i; simp [headline_rows]
  | cons it rest ih =>
    intro i
    simp [headline_rows, summary_box_ne_row, ih (i + 1)]

/-! ## Claim theorems -/

/-- Claim C1: for every ordered list of model attempts and every index k, if
attempt k succeeds and attempts 1..k-1 fail, the engine returns attempt k
response text with every occurrence of the ** emphasis marker removed, and
no attempt after k is ever invoked: the call trace is exactly the first k+1
calls. -/
theorem c1_first_success (oracle : GenCall → Option String) (prompt : String)
    (ms : List String) (k : Nat) (hk : k < ms.length) (txt : String)
    (hfail : ∀ m ∈ ms.take k, oracle (mkCall m prompt) = none)
    (hsucc : oracle (mkCall (ms.get ⟨k, hk⟩) prompt) = some txt) :
    (run_attempts oracle prompt ms).1 = strip_bold txt ∧
    (run_attempts oracle prompt ms).2 =
      (ms.take (k + 1)).map (fun m => mkCall m prompt) := by
  induction ms generalizing k with
  | nil => exact absurd hk (by simp)
  | cons m rest ih =>
    cases k with
    | zero =>
      have hsucc0 : oracle (mkCall m prompt) = some txt := hsucc
      simp [run_attempts, hsucc0]
    | succ k' =>
      have hm : oracle (mkCall m prompt) = none :=
        hfail m (by rw [List.take_succ_cons]; exact List.mem_cons_self _ _)
      have hk' : k' < rest.length := by
        simpa [Nat.succ_lt_succ_iff] using hk
      have hfail' : ∀ x ∈ rest.take k', oracle (mkCall x prompt) = none :=
        fun x hx => hfail x (by rw [List.take_succ_cons]; exact List.mem_cons_of_mem _ hx)
      have hsucc' : oracle (mkCall (rest.get ⟨k', hk'⟩) prompt) = some txt := hsucc
      obtain ⟨ih1, ih2⟩ := ih k' hk' hfail' hsucc'
      constructor
      · simp [run_attempts, hm, ih1]
      · simp [run_attempts, hm, ih2, List.take_succ_cons]

/-- Witness for C1: the first model fails, the second succeeds with the text
containing the ** marker, and the trace stops after two calls. -/
theorem c1_witness :
    (run_attempts w_oracle (build_prompt w_news 8) models_to_try).1 =
      strip_bold "**Hi** there" ∧
    (run_attempts w_oracle (build_prompt w_news 8) models_to_try).2 =
      (models_to_try.take 2).map (fun m => mkCall m (build_prompt w_news 8)) :=
  c1_first_success w_oracle (build_prompt w_news 8) models_to_try 1 (by decide)
    "**Hi** there" (by decide) (by decide)

/-- Claim C2: when every attempt in the chain fails, the engine returns the
fixed non-empty exhaustion sentinel, with no marker stripping applied to it
(the result is the literal sentinel itself) and, being a total function,
never propagates an error to the caller. -/
theorem c2_exhaustion (key : String) (hkey : key ≠ "")
    (oracle : GenCall → Option String) (news : List HeadlineRecord) (h : Nat)
    (hfail : ∀ m ∈ models_to_try, oracle (mkCall m (build_prompt news h)) = none) :
    (get_gemini_summary (some key) oracle news h).1 = exhaust_sentinel ∧
    exhaust_sentinel ≠ "" := by
  have hcond : ¬(some key = none ∨ some key = some "") := by simp [hkey]
  constructor
  · simp only [get_gemini_summary, if_neg hcond]
    rw [run_attempts_all_fail oracle (build_prompt news h) models_to_try hfail]
  · decide

/-- Witness for C2: with a present key and an oracle failing every call, the
engine yields the exhaustion sentinel. -/
theorem c2_witness :
    (get_gemini_summary (some "k") w_fail_oracle w_news 8).1 = exhaust_sentinel ∧
    exhaust_sentinel ≠ "" :=
  c2_exhaustion "k" (by decide) w_fail_oracle w_news 8 (by decide)

/-- Claim C3: with the generation-service API key absent, the engine returns
the missing-credential sentinel at once, issues no generation call at all,
and that sentinel differs from the exhaustion sentinel. -/
theorem c3_missing_key (oracle : GenCall → Option String)
    (news : List HeadlineRecord) (h : Nat) :
    get_gemini_summary none oracle news h = (missing_key_sentinel, []) ∧
    missing_key_sentinel ≠ exhaust_sentinel := by
  constructor
  · simp [get_gemini_summary]
  · decide

/-- Claim C5: an empty fetched headline list short-circuits the whole run:
the summarization engine is never invoked, no generation call is issued, no
delivery POST is made and the snapshot persistence step is never reached. -/
theorem c5_empty_feed (key : Option String) (oracle : GenCall → Option String)
    (h : Nat) (token : Option String) (outcome : PostOutcome) :
    main_run [] key oracle h token outcome =
      { summaryCalled := false, genCalls := [], postCount := 0,
        persistCalled := false, crashed := false } := by
  simp [main_run]

/-- Claim C6: the greeting is a pure function of the local hour h in UTC+8:
hours in [5,12) give the morning greeting, hours in [12,18) the midday
greeting, all others the evening greeting, with inclusive lower bounds so
that 5, 12 and 18 land in the later bucket. -/
theorem c6_greeting_buckets (h : Nat) :
    ((5 ≤ h ∧ h < 12) → greeting h = "早安") ∧
    ((12 ≤ h ∧ h < 18) → greeting h = "午安") ∧
    ((h < 5 ∨ 18 ≤ h) → greeting h = "晚安") := by
  unfold greeting
  refine ⟨fun hh => ?_, fun hh => ?_, fun hh => ?_⟩
  · rw [if_pos hh]
  · rw [if_neg (by omega), if_pos hh]
  · rw [if_neg (by omega), if_neg (by omega)]

/-- Witness for C6: the boundary hours 5, 12 and 18 each fall in the later
bucket. -/
theorem c6_witness :
    greeting 5 = "早安" ∧ greeting 12 = "午安" ∧ greeting 18 = "晚安" :=
  ⟨(c6_greeting_buckets 5).1 (by omega),
   (c6_greeting_buckets 12).2.1 (by omega),
   (c6_greeting_buckets 18).2.2 (by omega)⟩

/-- Claim C9: a fetched link longer than 990 characters is stored as the
fixed fallback URL, and a link of at most 990 characters is stored
unchanged. -/
theorem c9_link_guard (title link : String) :
    (link.length > 990 → (fetch_item title link).link = "https://news.google.com/") ∧
    (link.length ≤ 990 → (fetch_item title link).link = link) := by
  constructor
  · intro hl
    simp only [fetch_item, fetch_link]
    rw [if_pos hl]
  · intro hl
    simp only [fetch_item, fetch_link]
    rw [if_neg (by omega)]

set_option maxRecDepth 8192 in
/-- Witness for C9: a 991-character link is replaced by the fallback URL and
a short link passes through unchanged. -/
theorem c9_witness :
    w_long_link.length > 990 ∧
    (fetch_item "T" w_long_link).link = "https://news.google.com/" ∧
    ("http://x" : String).length ≤ 990 ∧
    (fetch_item "T" "http://x").link = "http://x" :=
  ⟨by decide, (c9_link_guard "T" w_long_link).1 (by decide), by decide,
   (c9_link_guard "T" "http://x").2 (by decide)⟩

/-- Claim C10: every call issued by the fallback chain carries the identical
prompt and the identical safety configuration, which sets all four harm
categories to BLOCK_NONE; the calls differ only in the model id, running
through a prefix of the fixed model list, and that list has exactly three
entries. -/
theorem c10_uniform_chain (key : String) (hkey : key ≠ "")
    (oracle : GenCall → Option String) (news : List HeadlineRecord) (h : Nat) :
    (∀ c ∈ (get_gemini_summary (some key) oracle news h).2,
      c.contents = build_prompt news h ∧ c.safety_settings = safety_config) ∧
    (∃ n, ((get_gemini_summary (some key) oracle news h).2).map GenCall.model =
      models_to_try.take n) ∧
    models_to_try.length = 3 ∧
    safety_config =
      [ { category := "HARM_CATEGORY_HATE_SPEECH", threshold := "BLOCK_NONE" },
        { category := "HARM_CATEGORY_DANGEROUS_CONTENT", threshold := "BLOCK_NONE" },
        { category := "HARM_CATEGORY_SEXUALLY_EXPLICIT", threshold := "BLOCK_NONE" },
        { category := "HARM_CATEGORY_HARASSMENT", threshold := "BLOCK_NONE" } ] := by
  have hcond : ¬(some key = none ∨ some key = some "") := by simp [hkey]
  obtain ⟨n, hn⟩ := run_attempts_calls oracle (build_prompt news h) models_to_try
  refine ⟨?_, ⟨n, ?_⟩, by decide, by decide⟩
  · intro c hc
    simp only [get_gemini_summary, if_neg hcond] at hc
    rw [hn] at hc
    obtain ⟨m, _, rfl⟩ := List.mem_map.mp hc
    exact ⟨rfl, rfl⟩
  · simp only [get_gemini_summary, if_neg hcond]
    rw [hn, List.map_map]
    have hcomp : (GenCall.model ∘ fun m => mkCall m (build_prompt news h)) = id := rfl
    rw [hcomp, List.map_id]

/-- Witness for C10: with a present key and an all-failing oracle, the chain
issues its three uniform calls. -/
theorem c10_witness :
    (∀ c ∈ (get_gemini_summary (some "k") w_fail_oracle w_news 8).2,
      c.contents = build_prompt w_news 8 ∧ c.safety_settings = safety_config) ∧
    (∃ n, ((get_gemini_summary (some "k") w_fail_oracle w_news 8).2).map GenCall.model =
      models_to_try.take n) ∧
    models_to_try.length = 3 ∧
    safety_config =
      [ { category := "HARM_CATEGORY_HATE_SPEECH", threshold := "BLOCK_NONE" },
        { category := "HARM_CATEGORY_DANGEROUS_CONTENT", threshold := "BLOCK_NONE" },
        { category := "HARM_CATEGORY_SEXUALLY_EXPLICIT", threshold := "BLOCK_NONE" },
        { category := "HARM_CATEGORY_HARASSMENT", threshold := "BLOCK_NONE" } ] :=
  c10_uniform_chain "k" (by decide) w_fail_oracle w_news 8

/-- Counterexample for C4: with a non-empty headline list and a configured
LINE token, a delivery failure that raises a transport exception escapes
send_flex_message, because the requests.post call on line 121 has no
exception handler, and the run aborts before update_pwa_data: the
persistence step is not reached, contradicting the claim that it always
is. -/
theorem c4_counterexample :
    ¬ ((main_run w_news (some "K") w_fail_oracle 8 (some "T")
        PostOutcome.raiseExc).persistCalled = true) := by
  decide

/-- Claim C4 as amended: with non-empty headlines and a configured token,
a delivery failure reported as an HTTP error response is absorbed silently:
exactly one POST is issued, it is not retried, and the persistence step is
still reached; a delivery failure that raises a transport exception,
however, propagates and the persistence step is skipped. -/
theorem c4_amended (news : List HeadlineRecord) (hne : news ≠ [])
    (key : Option String) (oracle : GenCall → Option String) (h : Nat)
    (token : String) (htok : token ≠ "") :
    (main_run news key oracle h (some token) PostOutcome.httpError).postCount = 1 ∧
    (main_run news key oracle h (some token) PostOutcome.httpError).persistCalled = true ∧
    (main_run news key oracle h (some token) PostOutcome.raiseExc).persistCalled = false := by
  refine ⟨?_, ?_, ?_⟩ <;>
    simp [main_run, send_flex_message, hne, htok, update_pwa_data_raises]

/-- Witness for C4 as amended: a concrete run with one headline and a set
token, under an HTTP-error delivery and under a raising delivery. -/
theorem c4_witness :
    (main_run w_news (some "K") w_fail_oracle 8 (some "T")
      PostOutcome.httpError).postCount = 1 ∧
    (main_run w_news (some "K") w_fail_oracle 8 (some "T")
      PostOutcome.httpError).persistCalled = true ∧
    (main_run w_news (some "K") w_fail_oracle 8 (some "T")
      PostOutcome.raiseExc).persistCalled = false :=
  c4_amended w_news (by decide) (some "K") w_fail_oracle 8 "T" (by decide)

/-- Counterexample for C7: the script includes the summary box whenever the
summary string is truthy, with no sentinel check, so for the non-empty
exhaustion sentinel the box is present even though the claim requires it to
be omitted for failure sentinels. -/
theorem c7_counterexample :
    ¬ ((summary_box exhaust_sentinel ∈
          flex_contents w_news exhaust_sentinel "2025-01-01 08:00") ↔
        (exhaust_sentinel ≠ "" ∧ exhaust_sentinel ≠ missing_key_sentinel ∧
          exhaust_sentinel ≠ exhaust_sentinel)) := by
  decide

/-- Claim C7 as amended: the composed flex body contains the highlighted
AI-summary block exactly when the summary string is non-empty; failure
sentinels are themselves non-empty, so they are rendered inline as a
summary rather than omitted. -/
theorem c7_amended (news : List HeadlineRecord) (summary tw : String) :
    summary_box summary ∈ flex_contents news summary tw ↔ summary ≠ "" := by
  constructor
  · intro hmem hs
    subst hs
    simp [flex_contents, summary_box_ne_header, summary_box_ne_separator,
      summary_box_ne_hot, summary_box_not_in_rows "" news 1] at hmem
  · intro hs
    simp only [flex_contents, if_pos hs]
    simp

/-- Witness for C7 as amended: a non-empty ordinary summary has its box in
the composed body. -/
theorem c7_witness :
    summary_box "S" ∈ flex_contents w_news "S" "2025-01-01 08:00" :=
  (c7_amended w_news "S" "2025-01-01 08:00").mpr (by decide)

/-- Unfolding pySplit on a list starting with the separator. -/
lemma pySplit_cons_pos (sep : List Char) (c : Char) (rest : List Char)
    (h1 : sep.isPrefixOf (c :: rest) = true) (h2 : sep ≠ []) :
    pySplit sep (c :: rest) = [] :: pySplit sep (List.drop (sep.length - 1) rest) := by
  rw [pySplit]
  rw [if_pos ⟨h1, h2⟩]

/-- Unfolding pySplit on a list not starting with the separator. -/
lemma pySplit_cons_neg (sep : List Char) (c : Char) (rest : List Char)
    (h : ¬ (sep.isPrefixOf (c :: rest) = true)) :
    pySplit sep (c :: rest) =
      (c :: (pySplit sep rest).headD []) :: (pySplit sep rest).tail := by
  rw [pySplit]
  rw [if_neg (fun hh => h hh.1)]

/-- An occurrence of a nonempty separator needs the index to lie inside the
list. -/
lemma occursAt_lt_length (sep l : List Char) (hsep : sep ≠ []) (i : Nat)
    (hocc : occursAt sep l i) : i < l.length := by
  by_contra hi
  have hd : List.drop i l = [] := List.drop_eq_nil_of_le (by omega)
  unfold occursAt at hocc
  rw [hd] at hocc
  cases sep with
  | nil => exact hsep rfl
  | cons a as => simp [List.isPrefixOf] at hocc

/-- To rule out every occurrence of a nonempty separator it is enough to
rule out the indices inside the list. -/
lemma no_occursAt_of_ball (sep l : List Char) (hsep : sep ≠ [])
    (h : ∀ i, i < l.length → ¬ occursAt sep l i) : ∀ i, ¬ occursAt sep l i :=
  fun i hocc => h i (occursAt_lt_length sep l hsep i hocc) hocc

/-- The first piece of pySplit is the text before the first occurrence of
the separator: if the separator occurs at i and nowhere earlier, the head
equals the first i characters. -/
lemma pySplit_head_first_occ (sep : List Char) (hsep : sep ≠ []) :
    ∀ l i, occursAt sep l i → (∀ j, j < i → ¬ occursAt sep l j) →
      (pySplit sep l).headD [] = l.take i := by
  intro l
  induction l with
  | nil =>
    intro i hocc _
    exact absurd (occursAt_lt_length sep [] hsep i hocc) (by simp)
  | cons c rest ih =>
    intro i hocc hmin
    by_cases hp : sep.isPrefixOf (c :: rest) = true
    · have h0 : occursAt sep (c :: rest) 0 := by
        unfold occursAt
        simpa using hp
      have hi : i = 0 := by
        by_contra hne
        exact hmin 0 (Nat.pos_of_ne_zero hne) h0
      subst hi
      rw [pySplit_cons_pos sep c rest hp hsep]
      simp
    · cases i with
      | zero =>
        exact absurd (by simpa [occursAt] using hocc) hp
      | succ i' =>
        have hocc' : occursAt sep rest i' := by
          simpa [occursAt, List.drop_succ_cons] using hocc
        have hmin' : ∀ j, j < i' → ¬ occursAt sep rest j := by
          intro j hj hoj
          exact hmin (j + 1) (Nat.succ_lt_succ hj)
            (by simpa [occursAt, List.drop_succ_cons] using hoj)
        rw [pySplit_cons_neg sep c rest hp, List.take_succ_cons, List.headD_cons,
          ih i' hocc' hmin']

/-- When the separator never occurs, the first piece of pySplit is the whole
list. -/
lemma pySplit_head_no_occ (sep : List Char) (_hsep : sep ≠ []) :
    ∀ l, (∀ i, ¬ occursAt sep l i) → (pySplit sep l).headD [] = l := by
  intro l
  induction l with
  | nil =>
    intro _
    rw [pySplit]
    rfl
  | cons c rest ih =>
    intro hno
    have hp : ¬ (sep.isPrefixOf (c :: rest) = true) := by
      intro hp
      exact hno 0 (by simpa [occursAt] using hp)
    rw [pySplit_cons_neg sep c rest hp, List.headD_cons,
      ih (fun i hi => hno (i + 1) (by simpa [occursAt, List.drop_succ_cons] using hi))]

/-- Claim C8: for every fetched feed item whose title contains the
separator, the stored title is the prefix of the title up to the first
occurrence of the separator; a title in which the separator never occurs is
stored unchanged. -/
theorem c8_title_clean (title link : String) :
    (∀ i, occursAt sepChars title.data i →
      (∀ j, j < i → ¬ occursAt sepChars title.data j) →
      (fetch_item title link).title = String.mk (title.data.take i)) ∧
    ((∀ i, ¬ occursAt sepChars title.data i) →
      (fetch_item title link).title = title) := by
  constructor
  · intro i hocc hmin
    show clean_title title = _
    unfold clean_title
    rw [pySplit_head_first_occ sepChars (by decide) title.data i hocc hmin]
  · intro hno
    show clean_title title = title
    unfold clean_title
    rw [pySplit_head_no_occ sepChars (by decide) title.data hno]

/-- Witness for C8: the title with a separator loses its suffix from the
first separator on, and a separator-free title is stored unchanged. -/
theorem c8_witness :
    ((fetch_item "A - Source" "http://x").title = String.mk ("A - Source".data.take 1) ∧
      String.mk ("A - Source".data.take 1) = "A") ∧
    (fetch_item "C" "http://z").title = "C" :=
  ⟨⟨(c8_title_clean "A - Source" "http://x").1 1 (by decide) (by decide), by decide⟩,
    (c8_title_clean "C" "http://z").2
      (no_occursAt_of_ball sepChars "C".data (by decide) (by decide))⟩

end NewsPwa
